import Mathlib

/-!
Shallow embedding of the `shotgun` screenshot utility (`src/main.rs`), together
with models of the `util::Rect` and `xwrap::parse_geometry` helpers that the
repository declares in modules not present under `src/` (they are specified in
sections 4.1 and 4.2 of the design document).  All machine integers of the
source (`i32` coordinates, `u64` window ids) are modelled as `Int`/`Nat`; the
program manipulates small screen geometries, far from any overflow.
-/

namespace Shotgun

/-- An axis-aligned integer rectangle, as `util::Rect` (fields `x y w h : i32`).
A rectangle with `w = 0` or `h = 0` denotes an empty area. -/
structure Rect where
  x : Int
  y : Int
  w : Int
  h : Int
deriving DecidableEq, Repr

/-- Modelled from the spec: `util::Rect::intersection` (module `util` is not
under `src/`).  Per spec 4.1: `x = max`, `y = max`, right edge `= min` of right
edges, bottom edge `= min` of bottom edges; `none` when the computed width or
height would be `≤ 0`. -/
def Rect.intersection (a b : Rect) : Option Rect :=
  let ix := max a.x b.x
  let iy := max a.y b.y
  let iw := min (a.x + a.w) (b.x + b.w) - ix
  let ih := min (a.y + a.h) (b.y + b.h) - iy
  if iw ≤ 0 ∨ ih ≤ 0 then none
  else some ⟨ix, iy, iw, ih⟩

/-- Point membership of a rectangle (half-open on the right/bottom), the
coordinate test used when describing which pixels a sub-image copy touches. -/
def Rect.containsPt (r : Rect) (x y : Int) : Bool :=
  decide (r.x ≤ x) && decide (x < r.x + r.w) && decide (r.y ≤ y) && decide (y < r.y + r.h)

/-- One RGBA8 pixel (`image::Rgba`). -/
structure Rgba where
  r : Nat
  g : Nat
  b : Nat
  a : Nat
deriving DecidableEq, Repr

/-- The fully transparent zero pixel `Rgba::from_channels(0, 0, 0, 0)`. -/
def Rgba.zero : Rgba := ⟨0, 0, 0, 0⟩

/-- An RGBA image buffer (`image::RgbaImage`): explicit dimensions plus pixel
contents, the latter as a total function on integer coordinates. -/
structure Buffer where
  w : Nat
  h : Nat
  pix : Int → Int → Rgba

/-- `masked.copy_from(&image.sub_image(r.x, r.y, r.w, r.h), r.x, r.y)`:
every pixel of `dst` inside `r` is replaced by the pixel of `src` at the same
coordinate; pixels outside `r` keep their `dst` value. -/
def copySub (dst src : Buffer) (r : Rect) : Buffer :=
  { dst with pix := fun x y => if r.containsPt x y then src.pix x y else dst.pix x y }

/-- Lines 155–160 of `main.rs`: the screen-overlap rectangle translated into
capture-relative coordinates (`x - sel.x`, `y - sel.y`). -/
def subRect (sel screen : Rect) : Rect :=
  ⟨screen.x - sel.x, screen.y - sel.y, screen.w, screen.h⟩

/-- Line 145–146: `screens.filter_map(|s| s.intersection(sel)).collect()`. -/
def overlapScreens (sel : Rect) (screens : List Rect) : List Rect :=
  screens.filterMap fun s => s.intersection sel

/-- Lines 144–168 of `main.rs`: masking of the captured buffer against the
enumerated screens.  If more than one screen overlaps the selection, a fresh
`sel.w × sel.h` buffer of transparent zero pixels is allocated and, for each
overlapping screen, the corresponding sub-region of the capture is copied into
it at the same capture-relative offset; otherwise the buffer is returned
unchanged. -/
def applyMask (sel : Rect) (screens : List Rect) (img : Buffer) : Buffer :=
  if (overlapScreens sel screens).length > 1 then
    (overlapScreens sel screens).foldl
      (fun acc screen => copySub acc img (subRect sel screen))
      ⟨sel.w.toNat, sel.h.toNat, fun _ _ => Rgba.zero⟩
  else img

/-- The fatal error kinds of the pipeline (spec section 7); the soft
`ScreenEnumerationFailed` condition is recorded separately as a warning flag. -/
inductive PipeError where
  | InvalidGeometry
  | WindowLookupFailed
  | EmptySelection
  | CaptureFailed
  | UnsupportedPixelFormat
deriving DecidableEq, Repr

/-- Decimal digit test on a character. -/
def isDigitCh (c : Char) : Bool :=
  decide (48 ≤ c.toNat) && decide (c.toNat ≤ 57)

/-- Split a character list into its leading run of decimal digits and the rest. -/
def takeDigits : List Char → List Char × List Char
  | [] => ([], [])
  | c :: cs =>
    if isDigitCh c then
      let p := takeDigits cs
      (c :: p.1, p.2)
    else ([], c :: cs)

/-- Value of a (most-significant-first) digit list. -/
def digitsToNat (ds : List Char) : Nat :=
  ds.foldl (fun acc c => acc * 10 + (c.toNat - 48)) 0

/-- Sign characters accepted before the `X`/`Y` fields. -/
def isSignCh (c : Char) : Bool :=
  decide (c = '+') || decide (c = '-')

/-- Apply a sign character to a digit value. -/
def signedVal (s : Char) (n : Nat) : Int :=
  if s = '-' then -(n : Int) else (n : Int)

/-- Modelled from the spec: `xwrap::parse_geometry` (module `xwrap` is not
under `src/`).  Per spec 4.1 it accepts a geometry string of the shape
`WxH+X+Y` (all four fields, `+` or `-` introducing the signed `X`/`Y`): `W`
and `H` are non-negative integers, `X` and `Y` are integers, and any string
not of this shape fails with `InvalidGeometry`.  The parsed rectangle is
root-relative by convention. -/
def parse_geometry (s : String) : Except PipeError Rect :=
  let p1 := takeDigits s.toList
  match p1.2 with
  | 'x' :: r1 =>
    let p2 := takeDigits r1
    match p2.2 with
    | sx :: r2 =>
      let p3 := takeDigits r2
      match p3.2 with
      | sy :: r3 =>
        let p4 := takeDigits r3
        if p1.1 ≠ [] ∧ p2.1 ≠ [] ∧ p3.1 ≠ [] ∧ p4.1 ≠ [] ∧
            isSignCh sx ∧ isSignCh sy ∧ p4.2 = [] then
          Except.ok ⟨signedVal sx (digitsToNat p3.1), signedVal sy (digitsToNat p4.1),
                     (digitsToNat p1.1 : Int), (digitsToNat p2.1 : Int)⟩
        else Except.error PipeError.InvalidGeometry
      | _ => Except.error PipeError.InvalidGeometry
    | _ => Except.error PipeError.InvalidGeometry
  | _ => Except.error PipeError.InvalidGeometry

/-- An undecoded captured framebuffer (`xwrap::Image`); its interpretation is
left to the environment's converter capability. -/
structure Raw where
  bytes : List Nat
deriving DecidableEq, Repr

/-- Where the encoded image is written (lines 185–195 of `main.rs`). -/
inductive Dest where
  | stdout
  | file (path : String)
deriving DecidableEq, Repr

/-- The collaborators and already-parsed command-line inputs `run` consumes:
the X display primitives (`get_window_rect`, `get_image` plus
`into_image_buffer`, `get_screen_rects`) become total/optional functions, the
options become their parsed values. -/
structure Env where
  root : Nat
  windowArg : Option Nat
  geometry : Option String
  formatArg : Option String
  windowRectOf : Nat → Rect
  rawCapture : Nat → Rect → Option Raw
  convert : Raw → Option Buffer
  screens : Option (List Rect)
  pathArg : Option String
  nowSec : Int
  fileCreateOk : String → Bool

/-- The observable outcome of one `run`: exit code, the error kind of the
aborting branch (spec taxonomy), the selection rectangle handed to the raw
capture call, the converted (pre-masking) buffer, whether screen enumeration
was consulted, whether the enumeration-failure warning was printed, the
default-path notice, and the emitted image with its destination. -/
structure RunResult where
  exit : Nat
  err : Option PipeError
  capturedRect : Option Rect
  converted : Option Buffer
  enumerated : Bool
  enumWarned : Bool
  pathNotice : Option String
  output : Option (Dest × Buffer)

/-- An aborted run: exit code 1, nothing captured, nothing emitted. -/
def RunResult.failWith (e : Option PipeError) : RunResult :=
  ⟨1, e, none, none, false, false, none, none⟩

/-- Line 79–88: the captured window is the parsed `-i` argument, defaulting to
the root window. -/
def resolveWindow (env : Env) : Nat :=
  env.windowArg.getD env.root

/-- ASCII lowercase of one character, as `str::to_lowercase` acts on the
ASCII format names involved here. -/
def lowerCh (c : Char) : Char :=
  if 65 ≤ c.toNat ∧ c.toNat ≤ 90 then Char.ofNat (c.toNat + 32) else c

/-- Lowercase of a string, character by character. -/
def strLower (s : String) : String :=
  ⟨s.toList.map lowerCh⟩

/-- Line 90: the output extension is the `-f` argument, defaulting to `png`,
lowercased. -/
def resolveExt (env : Env) : String :=
  strLower (env.formatArg.getD "png")

/-- Lines 91–98: only `png` and `pam` are accepted output formats. -/
def extOk (e : String) : Bool :=
  decide (e = "png") || decide (e = "pam")

/-- Lines 101–122 of `main.rs`: resolve the selection rectangle.  A supplied
geometry string is parsed and intersected with the window's root-relative
rectangle; an empty intersection aborts (spec kind `EmptySelection`), and a
non-empty one is translated into window-relative coordinates by subtracting
the window's offset.  With no geometry the selection is the whole window. -/
def resolveSelection (geo : Option String) (window_rect : Rect) : Except PipeError Rect :=
  match geo with
  | some s =>
    match parse_geometry s with
    | Except.error e => Except.error e
    | Except.ok g =>
      match g.intersection window_rect with
      | some i => Except.ok ⟨i.x - window_rect.x, i.y - window_rect.y, i.w, i.h⟩
      | none => Except.error PipeError.EmptySelection
  | none => Except.ok ⟨0, 0, window_rect.w, window_rect.h⟩

/-- Lines 141–174 of `main.rs`: when the captured window is the default root,
enumerate the screens and mask; an enumeration failure only warns.  Returns
the buffer to emit plus the (enumerated, warned) trace flags. -/
def maskStage (env : Env) (sel : Rect) (img : Buffer) : Buffer × Bool × Bool :=
  if resolveWindow env = env.root then
    match env.screens with
    | some scr => (applyMask sel scr img, true, false)
    | none => (img, true, true)
  else (img, false, false)

/-- Line 176: the fallback output name `<unix seconds>.<extension>`. -/
def tsPath (env : Env) : String :=
  toString env.nowSec ++ "." ++ resolveExt env

/-- Lines 177–183: the positional argument, defaulting to `tsPath`. -/
def resolvePath (env : Env) : String :=
  env.pathArg.getD (tsPath env)

/-- Lines 179–182: the notice printed when no positional output path is
supplied, carrying the fallback name. -/
def noticeOf (env : Env) : Option String :=
  match env.pathArg with
  | some _ => none
  | none => some (tsPath env)

/-- Lines 176–197 of `main.rs`: resolve the output path (the notice records a
missing positional argument), then write to stdout when the path is `-`,
otherwise create the file, failing with exit code 1 when creation fails. -/
def emitStage (env : Env) (sel : Rect) (img final : Buffer) (enumd warned : Bool) : RunResult :=
  let path := resolvePath env
  if path = "-" then
    ⟨0, none, some sel, some img, enumd, warned, noticeOf env, some (Dest.stdout, final)⟩
  else if env.fileCreateOk path then
    ⟨0, none, some sel, some img, enumd, warned, noticeOf env, some (Dest.file path, final)⟩
  else
    ⟨1, none, some sel, some img, enumd, warned, noticeOf env, none⟩

/-- `run` (lines 90–197 of `main.rs`), starting after display open and window
id parsing: validate the output format, resolve the selection, capture, convert
to RGBA, mask when capturing the root, and emit. -/
def run (env : Env) : RunResult :=
  if extOk (resolveExt env) then
    match resolveSelection env.geometry (env.windowRectOf (resolveWindow env)) with
    | Except.error e => RunResult.failWith (some e)
    | Except.ok sel =>
      match env.rawCapture (resolveWindow env) sel with
      | none => { RunResult.failWith (some PipeError.CaptureFailed) with capturedRect := some sel }
      | some raw =>
        match env.convert raw with
        | none =>
          { RunResult.failWith (some PipeError.UnsupportedPixelFormat) with
            capturedRect := some sel }
        | some img =>
          let m := maskStage env sel img
          emitStage env sel img m.1 m.2.1 m.2.2
  else RunResult.failWith none

/-- The destination the emit stage selects when writing succeeds. -/
def destOf (env : Env) : Dest :=
  if resolvePath env = "-" then Dest.stdout else Dest.file (resolvePath env)

/-! ### Concrete environments used by witnesses and counterexamples -/

/-- A 200×100 capture whose pixels are all `(1, 2, 3, 4)`. -/
def cImg : Buffer := ⟨200, 100, fun _ _ => ⟨1, 2, 3, 4⟩⟩

/-- Two 80-wide screens with a 40-pixel horizontal gap between them. -/
def cScreens : List Rect := [⟨0, 0, 80, 100⟩, ⟨120, 0, 80, 100⟩]

/-- A root capture (window 1 = root) over a 200×100 root with the gapped
two-screen layout, writing to `out.png`. -/
def cEnvBase : Env :=
  { root := 1, windowArg := none, geometry := none, formatArg := none,
    windowRectOf := fun _ => ⟨0, 0, 200, 100⟩,
    rawCapture := fun _ _ => some ⟨[]⟩,
    convert := fun _ => some cImg,
    screens := some cScreens,
    pathArg := some "out.png", nowSec := 0,
    fileCreateOk := fun _ => true }

/-- `cEnvBase` with a geometry selecting the top half of the root: a proper
sub-region still overlapping both screens. -/
def c3env : Env := { cEnvBase with geometry := some "200x50+0+0" }

/-- The buffer `run c3env` actually emits. -/
def c3outBuf : Buffer := ((run c3env).output.getD (Dest.stdout, cImg)).2

/-- `cEnvBase` capturing window 2, which is not the root. -/
def c2env : Env := { cEnvBase with windowArg := some 2 }

/-- `cEnvBase` with zero enumerated screens. -/
def c4env : Env := { cEnvBase with screens := some ([] : List Rect) }

/-- `cEnvBase` with screen enumeration failing. -/
def c5env : Env := { cEnvBase with screens := none }

/-- `cEnvBase` with a geometry entirely outside the root rectangle. -/
def c6env : Env := { cEnvBase with geometry := some "10x10+1000+1000" }

/-- `cEnvBase` with a geometry selecting an interior sub-rectangle. -/
def c7env : Env := { cEnvBase with geometry := some "100x50+10+20" }

/-- `cEnvBase` with no positional output path and zero screens. -/
def c9env : Env := { cEnvBase with pathArg := none, screens := some ([] : List Rect) }

/-- `cEnvBase` writing to standard output, with zero screens. -/
def c10env : Env := { cEnvBase with pathArg := some "-", screens := some ([] : List Rect) }

/-! ### Lemmas about the masking copy loop -/

theorem foldl_copySub_pix (src : Buffer) (sel : Rect) (l : List Rect) (base : Buffer)
    (x y : Int) :
    (l.foldl (fun acc screen => copySub acc src (subRect sel screen)) base).pix x y =
      if l.any (fun screen => (subRect sel screen).containsPt x y) then src.pix x y
      else base.pix x y := by
  induction l generalizing base with
  | nil => simp
  | cons s t ih =>
    rw [List.foldl_cons, ih]
    cases hc : (subRect sel s).containsPt x y <;>
      cases ht : t.any (fun screen => (subRect sel screen).containsPt x y) <;>
        simp [copySub, hc, ht]

theorem foldl_copySub_w (src : Buffer) (sel : Rect) (l : List Rect) (base : Buffer) :
    (l.foldl (fun acc screen => copySub acc src (subRect sel screen)) base).w = base.w := by
  induction l generalizing base with
  | nil => rfl
  | cons s t ih => rw [List.foldl_cons, ih]; rfl

theorem foldl_copySub_h (src : Buffer) (sel : Rect) (l : List Rect) (base : Buffer) :
    (l.foldl (fun acc screen => copySub acc src (subRect sel screen)) base).h = base.h := by
  induction l generalizing base with
  | nil => rfl
  | cons s t ih => rw [List.foldl_cons, ih]; rfl

/-- **C1.** When more than one enumerated screen overlaps the selection, the
masked buffer has dimensions `sel.w × sel.h`, every pixel whose
capture-relative coordinate lies inside some screen-overlap rectangle
translated by `(-sel.x, -sel.y)` equals the corresponding source pixel, and
every other pixel is the fully transparent zero pixel. -/
theorem masking_multi_screen (sel : Rect) (screens : List Rect) (img : Buffer)
    (hlen : (overlapScreens sel screens).length > 1) :
    (applyMask sel screens img).w = sel.w.toNat ∧
    (applyMask sel screens img).h = sel.h.toNat ∧
    ∀ x y : Int, (applyMask sel screens img).pix x y =
      if (overlapScreens sel screens).any (fun s => (subRect sel s).containsPt x y)
      then img.pix x y else Rgba.zero := by
  unfold applyMask
  rw [if_pos hlen]
  refine ⟨foldl_copySub_w .., foldl_copySub_h .., fun x y => ?_⟩
  rw [foldl_copySub_pix]

/-- Witness for `masking_multi_screen` at a concrete two-screen layout with a
gap: the pixel `(50, 10)` lies on the first screen and is copied from the
source; the pixel `(100, 10)` lies in the gap and is zeroed. -/
theorem masking_multi_screen_witness :
    (overlapScreens ⟨0, 0, 200, 50⟩ [⟨0, 0, 80, 100⟩, ⟨120, 0, 80, 100⟩]).length > 1 ∧
    (applyMask ⟨0, 0, 200, 50⟩ [⟨0, 0, 80, 100⟩, ⟨120, 0, 80, 100⟩]
        ⟨200, 100, fun _ _ => ⟨1, 2, 3, 4⟩⟩).pix 50 10 = ⟨1, 2, 3, 4⟩ ∧
    (applyMask ⟨0, 0, 200, 50⟩ [⟨0, 0, 80, 100⟩, ⟨120, 0, 80, 100⟩]
        ⟨200, 100, fun _ _ => ⟨1, 2, 3, 4⟩⟩).pix 100 10 = Rgba.zero := by
  have h := masking_multi_screen ⟨0, 0, 200, 50⟩ [⟨0, 0, 80, 100⟩, ⟨120, 0, 80, 100⟩]
    ⟨200, 100, fun _ _ => ⟨1, 2, 3, 4⟩⟩ (by decide)
  refine ⟨by decide, ?_, ?_⟩
  · rw [h.2.2 50 10]; rfl
  · rw [h.2.2 100 10]; rfl

/-- **C4 (masking level).** With at most one overlapping screen the mask is a
no-op: the very same buffer is returned. -/
theorem masking_at_most_one_noop (sel : Rect) (screens : List Rect) (img : Buffer)
    (hlen : (overlapScreens sel screens).length ≤ 1) :
    applyMask sel screens img = img := by
  unfold applyMask
  rw [if_neg (by omega)]

/-! ### Lemmas about the run pipeline -/

theorem run_eq_emit (env : Env) (sel : Rect) (raw : Raw) (img : Buffer)
    (hext : extOk (resolveExt env) = true)
    (hsel : resolveSelection env.geometry (env.windowRectOf (resolveWindow env)) =
      Except.ok sel)
    (hcap : env.rawCapture (resolveWindow env) sel = some raw)
    (hconv : env.convert raw = some img) :
    run env = emitStage env sel img (maskStage env sel img).1
      (maskStage env sel img).2.1 (maskStage env sel img).2.2 := by
  unfold run
  rw [if_pos hext]
  simp only [hsel, hcap, hconv]

theorem maskStage_nonroot (env : Env) (sel : Rect) (img : Buffer)
    (hw : resolveWindow env ≠ env.root) :
    maskStage env sel img = (img, false, false) := by
  unfold maskStage
  rw [if_neg hw]

theorem maskStage_root_screens (env : Env) (sel : Rect) (img : Buffer) (scr : List Rect)
    (hroot : resolveWindow env = env.root) (hscr : env.screens = some scr) :
    maskStage env sel img = (applyMask sel scr img, true, false) := by
  unfold maskStage
  rw [if_pos hroot, hscr]

theorem maskStage_root_noscreens (env : Env) (sel : Rect) (img : Buffer)
    (hroot : resolveWindow env = env.root) (hscr : env.screens = none) :
    maskStage env sel img = (img, true, true) := by
  unfold maskStage
  rw [if_pos hroot, hscr]

theorem emitStage_write_ok (env : Env) (sel : Rect) (img final : Buffer)
    (enumd warned : Bool)
    (hwrite : resolvePath env = "-" ∨ env.fileCreateOk (resolvePath env) = true) :
    (emitStage env sel img final enumd warned).exit = 0 ∧
    (emitStage env sel img final enumd warned).output = some (destOf env, final) ∧
    (emitStage env sel img final enumd warned).converted = some img ∧
    (emitStage env sel img final enumd warned).enumWarned = warned := by
  unfold emitStage destOf
  by_cases hd : resolvePath env = "-"
  · rw [if_pos hd, if_pos hd]
    exact ⟨rfl, rfl, rfl, rfl⟩
  · rcases hwrite with hw | hw
    · exact absurd hw hd
    · rw [if_neg hd, if_neg hd, if_pos hw]
      exact ⟨rfl, rfl, rfl, rfl⟩

theorem run_extBad (env : Env) (h : extOk (resolveExt env) = false) :
    run env = RunResult.failWith none := by
  unfold run
  rw [if_neg (by rw [h]; exact Bool.false_ne_true)]

theorem run_selErr (env : Env) (e : PipeError)
    (hext : extOk (resolveExt env) = true)
    (hsel : resolveSelection env.geometry (env.windowRectOf (resolveWindow env)) =
      Except.error e) :
    run env = RunResult.failWith (some e) := by
  unfold run
  rw [if_pos hext]
  simp only [hsel]

theorem run_capFail (env : Env) (sel : Rect)
    (hext : extOk (resolveExt env) = true)
    (hsel : resolveSelection env.geometry (env.windowRectOf (resolveWindow env)) =
      Except.ok sel)
    (hcap : env.rawCapture (resolveWindow env) sel = none) :
    run env = { RunResult.failWith (some PipeError.CaptureFailed) with
      capturedRect := some sel } := by
  unfold run
  rw [if_pos hext]
  simp only [hsel, hcap]

theorem run_convFail (env : Env) (sel : Rect) (raw : Raw)
    (hext : extOk (resolveExt env) = true)
    (hsel : resolveSelection env.geometry (env.windowRectOf (resolveWindow env)) =
      Except.ok sel)
    (hcap : env.rawCapture (resolveWindow env) sel = some raw)
    (hconv : env.convert raw = none) :
    run env = { RunResult.failWith (some PipeError.UnsupportedPixelFormat) with
      capturedRect := some sel } := by
  unfold run
  rw [if_pos hext]
  simp only [hsel, hcap, hconv]

theorem emitStage_trace (env : Env) (sel : Rect) (img final : Buffer)
    (enumd warned : Bool) :
    (emitStage env sel img final enumd warned).enumerated = enumd ∧
    (emitStage env sel img final enumd warned).enumWarned = warned ∧
    (emitStage env sel img final enumd warned).capturedRect = some sel ∧
    (emitStage env sel img final enumd warned).converted = some img ∧
    ∀ d b, (emitStage env sel img final enumd warned).output = some (d, b) → b = final := by
  unfold emitStage
  by_cases hd : resolvePath env = "-"
  · rw [if_pos hd]
    refine ⟨rfl, rfl, rfl, rfl, fun d b h => ?_⟩
    simp only [Option.some.injEq, Prod.mk.injEq] at h
    exact h.2.symm
  · rw [if_neg hd]
    by_cases hc : env.fileCreateOk (resolvePath env) = true
    · rw [if_pos hc]
      refine ⟨rfl, rfl, rfl, rfl, fun d b h => ?_⟩
      simp only [Option.some.injEq, Prod.mk.injEq] at h
      exact h.2.symm
    · rw [if_neg hc]
      exact ⟨rfl, rfl, rfl, rfl, fun d b h => Option.noConfusion h⟩

/-! ### Claim theorems about the pipeline -/

/-- **C2.** Masking is attempted only for the default root window: whenever the
resolved window differs from the root, screen enumeration is never consulted
and the emitted buffer is exactly the converted RGBA buffer. -/
theorem nonroot_skips_masking (env : Env) (hw : resolveWindow env ≠ env.root) :
    (run env).enumerated = false ∧
    ∀ d b, (run env).output = some (d, b) → (run env).converted = some b := by
  cases hE : extOk (resolveExt env) with
  | false =>
    rw [run_extBad env hE]
    exact ⟨rfl, fun d b h => Option.noConfusion h⟩
  | true =>
    cases hS : resolveSelection env.geometry (env.windowRectOf (resolveWindow env)) with
    | error e =>
      rw [run_selErr env e hE hS]
      exact ⟨rfl, fun d b h => Option.noConfusion h⟩
    | ok sel =>
      cases hC : env.rawCapture (resolveWindow env) sel with
      | none =>
        rw [run_capFail env sel hE hS hC]
        exact ⟨rfl, fun d b h => Option.noConfusion h⟩
      | some raw =>
        cases hV : env.convert raw with
        | none =>
          rw [run_convFail env sel raw hE hS hC hV]
          exact ⟨rfl, fun d b h => Option.noConfusion h⟩
        | some img =>
          rw [run_eq_emit env sel raw img hE hS hC hV, maskStage_nonroot env sel img hw]
          have ht := emitStage_trace env sel img img false false
          exact ⟨ht.1, fun d b h => by
            rw [ht.2.2.2.2 d b h]
            exact ht.2.2.2.1⟩

/-- Witness for `nonroot_skips_masking`: capturing window 2 while the root is
window 1 never consults screen enumeration. -/
theorem nonroot_skips_masking_witness :
    (run c2env).enumerated = false :=
  (nonroot_skips_masking c2env (by decide)).1

/-- **C3 (corrected).** For a root capture with a user-supplied geometry the
emitted buffer is always the masked selection: masking is attempted whether or
not the resolved selection equals the whole root rectangle, and blanks pixels
exactly when more than one screen overlaps the selection. -/
theorem root_geometry_always_masked (env : Env) (sel : Rect) (raw : Raw) (img : Buffer)
    (scr : List Rect) (s : String)
    (hext : extOk (resolveExt env) = true)
    (hroot : resolveWindow env = env.root)
    (_hgeo : env.geometry = some s)
    (hsel : resolveSelection env.geometry (env.windowRectOf (resolveWindow env)) =
      Except.ok sel)
    (hcap : env.rawCapture (resolveWindow env) sel = some raw)
    (hconv : env.convert raw = some img)
    (hscr : env.screens = some scr) :
    ∀ d b, (run env).output = some (d, b) → b = applyMask sel scr img := by
  rw [run_eq_emit env sel raw img hext hsel hcap hconv,
      maskStage_root_screens env sel img scr hroot hscr]
  exact fun d b h =>
    (emitStage_trace env sel img (applyMask sel scr img) true false).2.2.2.2 d b h

/-- Witness for `root_geometry_always_masked` at the concrete sub-region
capture `c3env`. -/
theorem root_geometry_always_masked_witness :
    c3outBuf = applyMask ⟨0, 0, 200, 50⟩ cScreens cImg :=
  root_geometry_always_masked c3env ⟨0, 0, 200, 50⟩ ⟨[]⟩ cImg cScreens "200x50+0+0"
    rfl rfl rfl rfl rfl rfl rfl (Dest.file "out.png") c3outBuf rfl

/-- Counterexample to **C3** as stated: `c3env` captures the default root with
a geometry whose resolved selection `⟨0,0,200,50⟩` is a proper sub-region of
the root rectangle `⟨0,0,200,100⟩`, yet the emitted buffer is not the
unmasked converted buffer — the gap pixel `(100, 10)` is zeroed. -/
theorem root_geometry_masked_counterexample :
    resolveWindow c3env = c3env.root ∧
    c3env.geometry = some "200x50+0+0" ∧
    resolveSelection c3env.geometry (c3env.windowRectOf (resolveWindow c3env)) =
      Except.ok ⟨0, 0, 200, 50⟩ ∧
    (⟨0, 0, 200, 50⟩ : Rect) ≠ c3env.windowRectOf (resolveWindow c3env) ∧
    (run c3env).converted.map (fun b => b.pix 100 10) = some ⟨1, 2, 3, 4⟩ ∧
    (run c3env).output.map (fun o => o.2.pix 100 10) = some Rgba.zero :=
  ⟨rfl, rfl, rfl, by decide, rfl, rfl⟩

/-- **C4.** A root capture with at most one overlapping screen (including zero
screens, which is not an error) emits the converted buffer unchanged with a
success exit code: masking is a no-op. -/
theorem mask_noop_at_most_one (env : Env) (sel : Rect) (raw : Raw) (img : Buffer)
    (scr : List Rect)
    (hext : extOk (resolveExt env) = true)
    (hroot : resolveWindow env = env.root)
    (hsel : resolveSelection env.geometry (env.windowRectOf (resolveWindow env)) =
      Except.ok sel)
    (hcap : env.rawCapture (resolveWindow env) sel = some raw)
    (hconv : env.convert raw = some img)
    (hscr : env.screens = some scr)
    (hlen : (overlapScreens sel scr).length ≤ 1)
    (hwrite : resolvePath env = "-" ∨ env.fileCreateOk (resolvePath env) = true) :
    applyMask sel scr img = img ∧ (run env).exit = 0 ∧
    (run env).output = some (destOf env, img) := by
  have hnoop := masking_at_most_one_noop sel scr img hlen
  rw [run_eq_emit env sel raw img hext hsel hcap hconv,
      maskStage_root_screens env sel img scr hroot hscr, hnoop]
  have he := emitStage_write_ok env sel img img true false hwrite
  exact ⟨rfl, he.1, he.2.1⟩

/-- Witness for `mask_noop_at_most_one` with zero screens. -/
theorem mask_noop_at_most_one_witness :
    applyMask ⟨0, 0, 200, 100⟩ [] cImg = cImg ∧ (run c4env).exit = 0 ∧
    (run c4env).output = some (Dest.file "out.png", cImg) := by
  have h := mask_noop_at_most_one c4env ⟨0, 0, 200, 100⟩ ⟨[]⟩ cImg []
    rfl rfl rfl rfl rfl rfl (by decide) (Or.inr rfl)
  exact ⟨h.1, h.2.1, h.2.2⟩

/-- **C5.** Screen enumeration failing on a root capture is soft: the warning
is emitted, masking is skipped, and the unmasked converted buffer is still
emitted with exit code 0. -/
theorem enum_failure_soft (env : Env) (sel : Rect) (raw : Raw) (img : Buffer)
    (hext : extOk (resolveExt env) = true)
    (hroot : resolveWindow env = env.root)
    (hsel : resolveSelection env.geometry (env.windowRectOf (resolveWindow env)) =
      Except.ok sel)
    (hcap : env.rawCapture (resolveWindow env) sel = some raw)
    (hconv : env.convert raw = some img)
    (hscr : env.screens = none)
    (hwrite : resolvePath env = "-" ∨ env.fileCreateOk (resolvePath env) = true) :
    (run env).enumWarned = true ∧ (run env).exit = 0 ∧
    (run env).output = some (destOf env, img) := by
  rw [run_eq_emit env sel raw img hext hsel hcap hconv,
      maskStage_root_noscreens env sel img hroot hscr]
  have he := emitStage_write_ok env sel img img true true hwrite
  exact ⟨he.2.2.2, he.1, he.2.1⟩

/-- Witness for `enum_failure_soft`. -/
theorem enum_failure_soft_witness :
    (run c5env).enumWarned = true ∧ (run c5env).exit = 0 ∧
    (run c5env).output = some (Dest.file "out.png", cImg) := by
  have h := enum_failure_soft c5env ⟨0, 0, 200, 100⟩ ⟨[]⟩ cImg
    rfl rfl rfl rfl rfl rfl (Or.inr rfl)
  exact ⟨h.1, h.2.1, h.2.2⟩

/-- **C6.** A supplied geometry whose intersection with the window rectangle
is empty aborts with `EmptySelection` — exit code 1, before any capture is
requested and with nothing emitted. -/
theorem empty_selection_aborts (env : Env) (s : String) (g : Rect)
    (hext : extOk (resolveExt env) = true)
    (hgeo : env.geometry = some s)
    (hparse : parse_geometry s = Except.ok g)
    (hint : g.intersection (env.windowRectOf (resolveWindow env)) = none) :
    (run env).exit = 1 ∧ (run env).err = some PipeError.EmptySelection ∧
    (run env).capturedRect = none ∧ (run env).output = none := by
  have hsel : resolveSelection env.geometry (env.windowRectOf (resolveWindow env)) =
      Except.error PipeError.EmptySelection := by
    unfold resolveSelection
    rw [hgeo]
    simp only [hparse, hint]
  rw [run_selErr env PipeError.EmptySelection hext hsel]
  exact ⟨rfl, rfl, rfl, rfl⟩

/-- Witness for `empty_selection_aborts`: a 10×10 geometry at (1000, 1000)
lies entirely outside the 200×100 root. -/
theorem empty_selection_aborts_witness :
    (run c6env).exit = 1 ∧ (run c6env).err = some PipeError.EmptySelection ∧
    (run c6env).capturedRect = none ∧ (run c6env).output = none :=
  empty_selection_aborts c6env "10x10+1000+1000" ⟨1000, 1000, 10, 10⟩ rfl rfl rfl rfl

theorem run_capturedRect (env : Env) (sel : Rect)
    (hext : extOk (resolveExt env) = true)
    (hsel : resolveSelection env.geometry (env.windowRectOf (resolveWindow env)) =
      Except.ok sel) :
    (run env).capturedRect = some sel := by
  cases hC : env.rawCapture (resolveWindow env) sel with
  | none => rw [run_capFail env sel hext hsel hC]
  | some raw =>
    cases hV : env.convert raw with
    | none => rw [run_convFail env sel raw hext hsel hC hV]
    | some img =>
      rw [run_eq_emit env sel raw img hext hsel hC hV]
      exact (emitStage_trace env sel img _ _ _).2.2.1

/-- **C7.** The rectangle handed to the raw capture call is window-relative:
with a geometry it is the intersection of the parsed geometry and the window
rectangle, translated by the window's offset; without one it is
`{0, 0, window.w, window.h}`. -/
theorem capture_rect_window_relative (env : Env)
    (hext : extOk (resolveExt env) = true) :
    (∀ s g i, env.geometry = some s → parse_geometry s = Except.ok g →
      g.intersection (env.windowRectOf (resolveWindow env)) = some i →
      (run env).capturedRect =
        some ⟨i.x - (env.windowRectOf (resolveWindow env)).x,
              i.y - (env.windowRectOf (resolveWindow env)).y, i.w, i.h⟩) ∧
    (env.geometry = none →
      (run env).capturedRect =
        some ⟨0, 0, (env.windowRectOf (resolveWindow env)).w,
              (env.windowRectOf (resolveWindow env)).h⟩) := by
  constructor
  · intro s g i hs hp hi
    refine run_capturedRect env _ hext ?_
    unfold resolveSelection
    rw [hs]
    simp only [hp, hi]
  · intro hnone
    refine run_capturedRect env _ hext ?_
    unfold resolveSelection
    rw [hnone]

/-- Witness for `capture_rect_window_relative` at the geometry
`100x50+10+20` over a root at the origin. -/
theorem capture_rect_window_relative_witness :
    (run c7env).capturedRect = some ⟨10, 20, 100, 50⟩ := by
  have h := (capture_rect_window_relative c7env rfl).1 "100x50+10+20"
    ⟨10, 20, 100, 50⟩ ⟨10, 20, 100, 50⟩ rfl rfl rfl
  rw [h]
  decide

/-- **C8.** `parse_geometry` maps `100x50+10+20` to the rectangle
`{x := 10, y := 20, w := 100, h := 50}` and rejects a string that does not
match the `WxH+X+Y` grammar, such as `bogus`, with `InvalidGeometry`. -/
theorem parse_geometry_spec :
    parse_geometry "100x50+10+20" = Except.ok ⟨10, 20, 100, 50⟩ ∧
    parse_geometry "bogus" = Except.error PipeError.InvalidGeometry :=
  ⟨rfl, rfl⟩

theorem string_data_append (s t : String) : (s ++ t).data = s.data ++ t.data := by
  cases s
  cases t
  rfl

/-- The timestamp fallback name always contains a dot, so it is never the
stdout marker `-`. -/
theorem tsPath_ne_dash (env : Env) : tsPath env ≠ "-" := by
  intro h
  have hmem : '.' ∈ (tsPath env).data := by
    unfold tsPath
    rw [string_data_append, string_data_append]
    exact List.mem_append_left _ (List.mem_append_right _ (by decide))
  rw [h] at hmem
  exact absurd hmem (by decide)

theorem emitStage_stdout (env : Env) (sel : Rect) (img final : Buffer)
    (enumd warned : Bool) (hdash : resolvePath env = "-") :
    emitStage env sel img final enumd warned =
      ⟨0, none, some sel, some img, enumd, warned, noticeOf env,
       some (Dest.stdout, final)⟩ := by
  unfold emitStage
  rw [if_pos hdash]

theorem emitStage_file (env : Env) (sel : Rect) (img final : Buffer)
    (enumd warned : Bool) (hdash : resolvePath env ≠ "-")
    (hcreate : env.fileCreateOk (resolvePath env) = true) :
    emitStage env sel img final enumd warned =
      ⟨0, none, some sel, some img, enumd, warned, noticeOf env,
       some (Dest.file (resolvePath env), final)⟩ := by
  unfold emitStage
  rw [if_neg hdash, if_pos hcreate]

theorem emitStage_fileFail (env : Env) (sel : Rect) (img final : Buffer)
    (enumd warned : Bool) (hdash : resolvePath env ≠ "-")
    (hcreate : env.fileCreateOk (resolvePath env) = false) :
    emitStage env sel img final enumd warned =
      ⟨1, none, some sel, some img, enumd, warned, noticeOf env, none⟩ := by
  unfold emitStage
  rw [if_neg hdash, if_neg (by rw [hcreate]; exact Bool.false_ne_true)]

/-- **C9.** When no positional output path is supplied the run does not fail
on that account: the notice carries the fallback name
`<unix seconds>.<extension>`, and the encoded image is written to a file of
that name. -/
theorem default_output_path (env : Env) (sel : Rect) (raw : Raw) (img : Buffer)
    (hext : extOk (resolveExt env) = true)
    (hsel : resolveSelection env.geometry (env.windowRectOf (resolveWindow env)) =
      Except.ok sel)
    (hcap : env.rawCapture (resolveWindow env) sel = some raw)
    (hconv : env.convert raw = some img)
    (hpath : env.pathArg = none)
    (hcreate : env.fileCreateOk (tsPath env) = true) :
    tsPath env = toString env.nowSec ++ "." ++ resolveExt env ∧
    (run env).exit = 0 ∧
    (run env).pathNotice = some (tsPath env) ∧
    (run env).output = some (Dest.file (tsPath env), (maskStage env sel img).1) := by
  have hrp : resolvePath env = tsPath env := by
    unfold resolvePath
    rw [hpath]
    rfl
  have hdash : resolvePath env ≠ "-" := by
    rw [hrp]
    exact tsPath_ne_dash env
  rw [run_eq_emit env sel raw img hext hsel hcap hconv,
      emitStage_file env sel img _ _ _ hdash (by rw [hrp]; exact hcreate)]
  refine ⟨rfl, rfl, ?_, ?_⟩
  · show noticeOf env = some (tsPath env)
    unfold noticeOf
    rw [hpath]
  · rw [hrp]

/-- Witness for `default_output_path`: with `nowSec = 0` and the default
`png` format the fallback file is `0.png`. -/
theorem default_output_path_witness :
    tsPath c9env = "0.png" ∧ (run c9env).exit = 0 ∧
    (run c9env).pathNotice = some "0.png" ∧
    (run c9env).output = some (Dest.file "0.png", cImg) := by
  have h := default_output_path c9env ⟨0, 0, 200, 100⟩ ⟨[]⟩ cImg
    rfl rfl rfl rfl rfl rfl
  exact ⟨rfl, h.2.1, h.2.2.1, h.2.2.2⟩

/-- **C10.** A resolved output path of exactly `-` sends the encoded image to
standard output; any other path creates a file of that name when creation
succeeds, and the run fails with exit code 1 (emitting nothing) when creation
fails. -/
theorem output_destination (env : Env) (sel : Rect) (raw : Raw) (img : Buffer)
    (p : String)
    (hext : extOk (resolveExt env) = true)
    (hsel : resolveSelection env.geometry (env.windowRectOf (resolveWindow env)) =
      Except.ok sel)
    (hcap : env.rawCapture (resolveWindow env) sel = some raw)
    (hconv : env.convert raw = some img)
    (hpath : env.pathArg = some p) :
    (p = "-" → (run env).exit = 0 ∧
      (run env).output = some (Dest.stdout, (maskStage env sel img).1)) ∧
    (p ≠ "-" → env.fileCreateOk p = true → (run env).exit = 0 ∧
      (run env).output = some (Dest.file p, (maskStage env sel img).1)) ∧
    (p ≠ "-" → env.fileCreateOk p = false → (run env).exit = 1 ∧
      (run env).output = none) := by
  have hrp : resolvePath env = p := by
    unfold resolvePath
    rw [hpath]
    rfl
  rw [run_eq_emit env sel raw img hext hsel hcap hconv]
  refine ⟨fun hd => ?_, fun hd hc => ?_, fun hd hc => ?_⟩
  · rw [emitStage_stdout env sel img _ _ _ (by rw [hrp]; exact hd)]
    exact ⟨rfl, rfl⟩
  · rw [emitStage_file env sel img _ _ _ (by rw [hrp]; exact hd) (by rw [hrp]; exact hc)]
    exact ⟨rfl, by rw [hrp]⟩
  · rw [emitStage_fileFail env sel img _ _ _ (by rw [hrp]; exact hd) (by rw [hrp]; exact hc)]
    exact ⟨rfl, rfl⟩

/-- Witness for `output_destination`: path `-` goes to standard output. -/
theorem output_destination_witness :
    (run c10env).exit = 0 ∧ (run c10env).output = some (Dest.stdout, cImg) := by
  have h := (output_destination c10env ⟨0, 0, 200, 100⟩ ⟨[]⟩ cImg "-"
    rfl rfl rfl rfl rfl).1 rfl
  exact ⟨h.1, h.2⟩

end Shotgun
